import Mathlib

/-!
Verification of the `@jupyterlab/debugger` tokens and console content
behaviour. The protocol type maps are embedded directly from
`src/tokens.ts`; behavioural components whose implementation is not part
of this repository snapshot (session, models, console widget) are
modelled from the specification, as noted on each definition.
-/

namespace IDebugger

namespace ISession

/-- The `IDebugger.ISession.Request` type map from `src/tokens.ts`
(lines 610-647): each debug command paired with the TypeScript type of
its request arguments, in source order. -/
def requestEntries : List (String × String) :=
  [ ("attach", "DebugProtocol.AttachRequestArguments")
  , ("completions", "DebugProtocol.CompletionsArguments")
  , ("configurationDone", "DebugProtocol.ConfigurationDoneArguments")
  , ("continue", "DebugProtocol.ContinueArguments")
  , ("debugInfo", "EmptyObject")
  , ("disconnect", "DebugProtocol.DisconnectArguments")
  , ("dumpCell", "IDumpCellArguments")
  , ("evaluate", "DebugProtocol.EvaluateArguments")
  , ("exceptionInfo", "DebugProtocol.ExceptionInfoArguments")
  , ("goto", "DebugProtocol.GotoArguments")
  , ("gotoTargets", "DebugProtocol.GotoTargetsArguments")
  , ("initialize", "DebugProtocol.InitializeRequestArguments")
  , ("launch", "DebugProtocol.LaunchRequestArguments")
  , ("loadedSources", "DebugProtocol.LoadedSourcesArguments")
  , ("modules", "DebugProtocol.ModulesArguments")
  , ("next", "DebugProtocol.NextArguments")
  , ("pause", "DebugProtocol.PauseArguments")
  , ("restart", "DebugProtocol.RestartArguments")
  , ("restartFrame", "DebugProtocol.RestartFrameArguments")
  , ("reverseContinue", "DebugProtocol.ReverseContinueArguments")
  , ("scopes", "DebugProtocol.ScopesArguments")
  , ("setBreakpoints", "DebugProtocol.SetBreakpointsArguments")
  , ("setExceptionBreakpoints", "DebugProtocol.SetExceptionBreakpointsArguments")
  , ("setExpression", "DebugProtocol.SetExpressionArguments")
  , ("setFunctionBreakpoints", "DebugProtocol.SetFunctionBreakpointsArguments")
  , ("setVariable", "DebugProtocol.SetVariableArguments")
  , ("source", "DebugProtocol.SourceArguments")
  , ("stackTrace", "DebugProtocol.StackTraceArguments")
  , ("stepBack", "DebugProtocol.StepBackArguments")
  , ("stepIn", "DebugProtocol.StepInArguments")
  , ("stepInTargets", "DebugProtocol.StepInTargetsArguments")
  , ("stepOut", "DebugProtocol.StepOutArguments")
  , ("terminate", "DebugProtocol.TerminateArguments")
  , ("terminateThreads", "DebugProtocol.TerminateThreadsArguments")
  , ("threads", "EmptyObject")
  , ("variables", "DebugProtocol.VariablesArguments")
  ]

/-- The `IDebugger.ISession.Response` type map from `src/tokens.ts`
(lines 652-689): each debug command paired with the TypeScript type of
its response, in source order. -/
def responseEntries : List (String × String) :=
  [ ("attach", "DebugProtocol.AttachResponse")
  , ("completions", "DebugProtocol.CompletionsResponse")
  , ("configurationDone", "DebugProtocol.ConfigurationDoneResponse")
  , ("continue", "DebugProtocol.ContinueResponse")
  , ("debugInfo", "IDebugInfoResponse")
  , ("disconnect", "DebugProtocol.DisconnectResponse")
  , ("dumpCell", "IDumpCellResponse")
  , ("evaluate", "DebugProtocol.EvaluateResponse")
  , ("exceptionInfo", "DebugProtocol.ExceptionInfoResponse")
  , ("goto", "DebugProtocol.GotoResponse")
  , ("gotoTargets", "DebugProtocol.GotoTargetsResponse")
  , ("initialize", "DebugProtocol.InitializeResponse")
  , ("launch", "DebugProtocol.LaunchResponse")
  , ("loadedSources", "DebugProtocol.LoadedSourcesResponse")
  , ("modules", "DebugProtocol.ModulesResponse")
  , ("next", "DebugProtocol.NextResponse")
  , ("pause", "DebugProtocol.PauseResponse")
  , ("restart", "DebugProtocol.RestartResponse")
  , ("restartFrame", "DebugProtocol.RestartFrameResponse")
  , ("reverseContinue", "DebugProtocol.ReverseContinueResponse")
  , ("scopes", "DebugProtocol.ScopesResponse")
  , ("setBreakpoints", "DebugProtocol.SetBreakpointsResponse")
  , ("setExceptionBreakpoints", "DebugProtocol.SetExceptionBreakpointsResponse")
  , ("setExpression", "DebugProtocol.SetExpressionResponse")
  , ("setFunctionBreakpoints", "DebugProtocol.SetFunctionBreakpointsResponse")
  , ("setVariable", "DebugProtocol.SetVariableResponse")
  , ("source", "DebugProtocol.SourceResponse")
  , ("stackTrace", "DebugProtocol.StackTraceResponse")
  , ("stepBack", "DebugProtocol.StepBackResponse")
  , ("stepIn", "DebugProtocol.StepInResponse")
  , ("stepInTargets", "DebugProtocol.StepInTargetsResponse")
  , ("stepOut", "DebugProtocol.StepOutResponse")
  , ("terminate", "DebugProtocol.TerminateResponse")
  , ("terminateThreads", "DebugProtocol.TerminateThreadsResponse")
  , ("threads", "DebugProtocol.ThreadsResponse")
  , ("variables", "DebugProtocol.VariablesResponse")
  ]

/-- The keys of the `Request` type map, in source order. -/
def requestKeys : List String := requestEntries.map Prod.fst

/-- The keys of the `Response` type map, in source order. -/
def responseKeys : List String := responseEntries.map Prod.fst

/-- Look up the request-arguments type name for a command. -/
def requestTypeOf (command : String) : Option String :=
  (requestEntries.find? (fun p => p.fst == command)).map Prod.snd

/-- Look up the response type name for a command. -/
def responseTypeOf (command : String) : Option String :=
  (responseEntries.find? (fun p => p.fst == command)).map Prod.snd

end ISession

end IDebugger

namespace IDebugger

namespace ISession

/-- Modelled from the spec: the request multiplexer of the session. The
implementation of `ISession.sendRequest` is not part of this repository
snapshot (only its interface declaration in `src/tokens.ts` is); per the
spec it is a one-in-one-out asynchronous call wrapper where each
response resolves the promise of its own in-flight request. Each in-flight
request is a sequence number paired with its command. -/
structure MuxState where
  nextSeq : Nat
  pending : List (Nat × String)

/-- Modelled from the spec: sending a request registers it as in-flight
under a fresh sequence number and returns that number (the handle of the
promise that the matching response will resolve). -/
def sendRequest (st : MuxState) (command : String) : MuxState × Nat :=
  ({ nextSeq := st.nextSeq + 1
   , pending := (st.nextSeq, command) :: st.pending }, st.nextSeq)

/-- Modelled from the spec: a response with sequence number `seq`
resolves the promise of the in-flight request with that number; the
result is the command whose typed response resolves. -/
def resolveResponse (st : MuxState) (seq : Nat) : Option String :=
  (st.pending.find? (fun p => p.fst == seq)).map Prod.snd

end ISession

/-- Modelled from the spec: the debugger lifecycle state visible through
`IDebugger.isStarted`. The concrete `IDebugger` implementation is not
part of this repository snapshot; `src/tokens.ts` documents the
preconditions of `start`, `stop` and `restart`. -/
structure LifecycleState where
  isStarted : Bool

/-- Modelled from the spec: `start()` may be called only when
`isStarted` is false (precondition documented in `src/tokens.ts` line
70); afterwards the debugger is started. -/
def start (st : LifecycleState) : Option LifecycleState :=
  if st.isStarted then none else some { isStarted := true }

/-- Modelled from the spec: `stop()` may be called only when `isStarted`
is true (precondition documented in `src/tokens.ts` line 76); afterwards
the debugger is stopped. -/
def stop (st : LifecycleState) : Option LifecycleState :=
  if st.isStarted then some { isStarted := false } else none

/-- Modelled from the spec: `restart()` may be called only when
`isStarted` is true (precondition documented in `src/tokens.ts` line
82); afterwards the debugger is still started. -/
def restart (st : LifecycleState) : Option LifecycleState :=
  if st.isStarted then some { isStarted := true } else none

/-- Modelled from the spec: a session wraps one kernel connection and
"disposal releases the connection". -/
structure SessionState where
  connection : Option Nat
  isDisposed : Bool

/-- Modelled from the spec: disposing the session releases its kernel
connection. -/
def dispose (_s : SessionState) : SessionState :=
  { connection := none, isDisposed := true }

end IDebugger

/-- The debug commands named in the external-interface section of the
specification. -/
def specVocabulary : List String :=
  [ "attach", "launch", "setBreakpoints", "stackTrace", "variables"
  , "continue", "stepIn", "stepOut", "stepBack", "evaluate", "scopes"
  , "threads", "source", "dumpCell", "debugInfo" ]

/-- Set a key in an association-list model of a JavaScript `Map`: an
existing binding for the key is replaced in place, otherwise the new
binding is appended. -/
def mapSet {β : Type} (l : List (String × β)) (k : String) (v : β) :
    List (String × β) :=
  match l with
  | [] => [(k, v)]
  | a :: t => if a.fst == k then (k, v) :: t else a :: mapSet t k v

/-- Get a key from an association-list model of a JavaScript `Map`. -/
def mapGet {β : Type} (l : List (String × β)) (k : String) :
    Option (String × β) :=
  l.find? (fun p => p.fst == k)

namespace IDebugger

/-- The `IDebugger.IBreakpoint` record. Modelled from the spec for the
fields inherited from `DebugProtocol.Breakpoint` (which is external to
this repository): "Breakpoint: a source path, line,
verification/active flags"; the `active` flag is declared in
`src/tokens.ts` lines 404-406. -/
structure IBreakpoint where
  path : String
  line : Nat
  verified : Bool
  active : Bool
deriving DecidableEq

/-- Modelled from the spec: the breakpoints UI model (the implementation
behind `IDebugger.UI.IBreakpoints` is not part of this repository
snapshot); its state is a map from code id to the breakpoints of that
code, mirroring the `Map<string, IDebugger.IBreakpoint[]>` of
`src/tokens.ts` line 179. -/
structure BreakpointsModel where
  breakpoints : List (String × List IBreakpoint)

/-- Modelled from the spec: `setBreakpoints(id, breakpoints)` stores the
given list under the given code id. -/
def setBreakpoints (m : BreakpointsModel) (id : String)
    (bps : List IBreakpoint) : BreakpointsModel :=
  { breakpoints := mapSet m.breakpoints id bps }

/-- Modelled from the spec: `getBreakpoints(id)` returns the breakpoints
stored under the given code id, or the empty list. -/
def getBreakpoints (m : BreakpointsModel) (id : String) :
    List IBreakpoint :=
  match mapGet m.breakpoints id with
  | some p => p.snd
  | none => []

/-- The `IDebugger.Source` record from `src/tokens.ts` lines 293-308: a
path, a content string, and an optional mime type. -/
structure Source where
  path : String
  content : String
  mimeType : Option String
deriving DecidableEq

/-- Modelled from the spec: the source store behind
`IDebugger.getSource` — "fetched from the kernel, cached by path for
reuse across callstack frames". `fetchCount` counts kernel fetches. -/
structure SourceCache where
  entries : List (String × Source)
  fetchCount : Nat
deriving DecidableEq

/-- Modelled from the spec: `getSource` resolves a source record for the
given path, consulting the cache first and fetching content (and mime
type) from the kernel only on a miss, caching the result by path. -/
def getSource (fetch : String → String × Option String)
    (svc : SourceCache) (path : String) : SourceCache × Source :=
  match mapGet svc.entries path with
  | some p => (svc, p.snd)
  | none =>
    let f := fetch path
    let src : Source := { path := path, content := f.fst, mimeType := f.snd }
    ({ entries := mapSet svc.entries path src
     , fetchCount := svc.fetchCount + 1 }, src)

end IDebugger

/-- A timestamp value carried by the `executed` signal; mirrors the
JavaScript `Date` emitted by `ConsoleContent`. -/
structure Date where
  time : Nat
deriving DecidableEq

/-- A cell of the console content, identified by the order of its
creation. -/
structure Cell where
  id : Nat
  source : String
deriving DecidableEq

/-- Modelled from the spec and the tests in
`test/src/console/content.spec.ts`: the observable state of a
`ConsoleContent` widget (its implementation is not part of this
repository snapshot). `cells` are the content cells (banner first);
`prompt` is the current prompt cell; `methods` records invoked
protected methods as in the test harness; `executedEmits` records the
emissions of the `executed` signal. -/
structure ConsoleState where
  nextId : Nat
  cells : List Cell
  prompt : Cell
  methods : List String
  executedEmits : List Date
deriving DecidableEq

/-- Modelled from the spec: `newPrompt` appends the current prompt cell
to the content and creates a fresh code cell as the new prompt. -/
def newPromptStep (st : ConsoleState) : ConsoleState :=
  { nextId := st.nextId + 1
  , cells := st.cells ++ [st.prompt]
  , prompt := { id := st.nextId, source := "" }
  , methods := st.methods ++ [("newPrompt")]
  , executedEmits := st.executedEmits }

/-- Modelled from the spec: the kernel completeness check consulted by
`execute` when not forced; code whose last character is a colon (such
as a `for` header) is multiline-continuable, i.e. incomplete. -/
def isCodeComplete (code : String) : Bool := !(code.back == ':')

/-- Modelled from the spec: `ConsoleContent.execute(force)` executes the
prompt when forced or when the kernel reports the code complete —
appending the executed cell, emitting the `executed` signal once with a
`Date`, and creating a new prompt — and otherwise resolves leaving the
content and the prompt source untouched for amending. -/
def execute (complete : String → Bool) (force : Bool) (now : Nat)
    (st : ConsoleState) : ConsoleState :=
  if force || complete st.prompt.source then
    let st1 := newPromptStep st
    { st1 with executedEmits := st1.executedEmits ++ [{ time := now }] }
  else st

/-- The console state after attach: a banner cell and a fresh, empty
prompt (mirrors the test fixture before `execute` runs). -/
def initialConsole : ConsoleState :=
  { nextId := 2
  , cells := [{ id := 0, source := "" }]
  , prompt := { id := 1, source := "" }
  , methods := [("newPrompt")]
  , executedEmits := [] }

/-- The console state of the multiline test: the prompt holds the
syntactically incomplete code of the test at
`test/src/console/content.spec.ts` lines 257-267. -/
def multilineConsole : ConsoleState :=
  { initialConsole with prompt := { id := 1, source := "for x in range(5):" } }

/-- Modelled from the spec: the public asynchronous operations of the
`IDebugger` interface (`src/tokens.ts` lines 68-146 and 395-398). -/
inductive DebuggerOp where
  | start
  | stop
  | restart
  | restoreState
  | «continue»
  | next
  | stepIn
  | stepOut
  | updateBreakpoints
  | clearBreakpoints
  | inspectVariable
  | getSource
  | sendRequest
deriving DecidableEq

/-- Modelled from the spec: the state an operation updates on success. -/
structure DebuggerServiceState where
  isStarted : Bool
  breakpoints : List (String × List IDebugger.IBreakpoint)

/-- Modelled from the spec: the state transition an operation applies
once its kernel exchange succeeds. -/
def applyOp (op : DebuggerOp) (st : DebuggerServiceState) :
    DebuggerServiceState :=
  match op with
  | .start => { st with isStarted := true }
  | .stop => { st with isStarted := false }
  | .clearBreakpoints => { st with breakpoints := [] }
  | _ => st

/-- Modelled from the spec: running one public asynchronous operation
over the kernel transport. The outcome of the transport is the single kernel
exchange the operation awaits; "failures surface as rejected
asynchronous calls propagated to UI callers" with no retry, recovery or
partial application. -/
def runOp (transport : Except String Nat) (op : DebuggerOp)
    (st : DebuggerServiceState) :
    Except String (DebuggerServiceState × Nat) :=
  match transport with
  | .error e => .error e
  | .ok r => .ok (applyOp op st, r)

/-- Claim C1: every debug command in the external-interface
vocabulary (attach, launch, setBreakpoints, stackTrace, variables,
continue, stepIn, stepOut, stepBack, evaluate, scopes, threads, source,
dumpCell, debugInfo) has an entry in both the `IDebugger.ISession.Request`
and the `IDebugger.ISession.Response` type maps. -/
theorem C1_spec_vocabulary_in_request_and_response_maps :
    specVocabulary.all
      (fun c => IDebugger.ISession.requestKeys.contains c
        && IDebugger.ISession.responseKeys.contains c) = true := by
  decide

/-- Claim C3: the `Request` and `Response` type maps are keyed by exactly
the same 36 command names, with no duplicates, so no command has a
request type without a response type or vice versa. -/
theorem C3_request_response_same_36_keys :
    IDebugger.ISession.requestKeys = IDebugger.ISession.responseKeys
      ∧ IDebugger.ISession.requestKeys.length = 36
      ∧ IDebugger.ISession.requestKeys.Nodup := by
  refine ⟨by decide, by decide, by decide⟩

/-- Claim C2: for every command `K` keyed in the `Request` map,
`sendRequest(K, args)` takes exactly an argument of type `Request[K]`
(the request type lookup succeeds) and its promise resolves with exactly
a value of type `Response[K]` (the response type lookup succeeds), and
the response bearing the fresh sequence number resolves the promise of
that same request, carrying the command of that request. -/
theorem C2_send_request_typed_pairing (st : IDebugger.ISession.MuxState)
    (k : String) (hk : k ∈ IDebugger.ISession.requestKeys) :
    IDebugger.ISession.resolveResponse
        (IDebugger.ISession.sendRequest st k).1
        (IDebugger.ISession.sendRequest st k).2 = some k
      ∧ (IDebugger.ISession.requestTypeOf k).isSome = true
      ∧ (IDebugger.ISession.responseTypeOf k).isSome = true := by
  refine ⟨?_, ?_, ?_⟩
  · simp [IDebugger.ISession.resolveResponse, IDebugger.ISession.sendRequest,
      List.find?]
  · have hall : IDebugger.ISession.requestKeys.all
        (fun c => (IDebugger.ISession.requestTypeOf c).isSome) = true := by
      decide
    exact List.all_eq_true.mp hall k hk
  · have hall : IDebugger.ISession.requestKeys.all
        (fun c => (IDebugger.ISession.responseTypeOf c).isSome) = true := by
      decide
    exact List.all_eq_true.mp hall k hk

/-- Witness for C2 at the empty session state and the `stackTrace`
command. -/
theorem C2_send_request_typed_pairing_witness :
    IDebugger.ISession.resolveResponse
        (IDebugger.ISession.sendRequest
          { nextSeq := 0, pending := [] } "stackTrace").1
        (IDebugger.ISession.sendRequest
          { nextSeq := 0, pending := [] } "stackTrace").2
      = some ("stackTrace")
      ∧ (IDebugger.ISession.requestTypeOf "stackTrace").isSome = true
      ∧ (IDebugger.ISession.responseTypeOf "stackTrace").isSome = true :=
  C2_send_request_typed_pairing { nextSeq := 0, pending := [] }
    "stackTrace" (by decide)

/-- Claim C4: the lifecycle is a state machine: `start()` succeeds
exactly when `isStarted` is false and afterwards `isStarted` is true;
`stop()` succeeds exactly when `isStarted` is true and afterwards
`isStarted` is false; `restart()` succeeds exactly when `isStarted` is
true; and disposing the session releases its kernel connection. -/
theorem C4_lifecycle_state_machine (st : IDebugger.LifecycleState)
    (s : IDebugger.SessionState) :
    ((IDebugger.start st).isSome ↔ st.isStarted = false)
      ∧ (∀ st', IDebugger.start st = some st' → st'.isStarted = true)
      ∧ ((IDebugger.stop st).isSome ↔ st.isStarted = true)
      ∧ (∀ st', IDebugger.stop st = some st' → st'.isStarted = false)
      ∧ ((IDebugger.restart st).isSome ↔ st.isStarted = true)
      ∧ (IDebugger.dispose s).connection = none := by
  cases st with
  | mk b =>
    cases b <;>
      simp [IDebugger.start, IDebugger.stop, IDebugger.restart,
        IDebugger.dispose]

/-- Witness for C4: starting from a stopped debugger succeeds and
yields a started one. -/
theorem C4_lifecycle_state_machine_witness :
    IDebugger.start { isStarted := false } = some { isStarted := true }
      ∧ ({ isStarted := true } : IDebugger.LifecycleState).isStarted
        = true :=
  ⟨rfl,
    (C4_lifecycle_state_machine { isStarted := false }
        { connection := some 0, isDisposed := false }).2.1
      { isStarted := true } rfl⟩

/-- Looking up a key just set in the association-list map finds the new
binding. -/
theorem mapGet_mapSet_self {β : Type} (l : List (String × β)) (k : String)
    (v : β) : mapGet (mapSet l k v) k = some (k, v) := by
  induction l with
  | nil => simp [mapSet, mapGet, List.find?]
  | cons a t ih =>
    by_cases h : a.fst = k
    · simp [mapSet, mapGet, List.find?, h]
    · have hf : (a.fst == k) = false := by simp [h]
      simp only [mapSet, mapGet] at ih ⊢
      rw [if_neg (by simp [h])]
      simpa [List.find?, hf] using ih

/-- Setting one key leaves the lookup of every other key unchanged. -/
theorem mapGet_mapSet_ne {β : Type} (l : List (String × β)) (k kx : String)
    (v : β) (h : kx ≠ k) : mapGet (mapSet l k v) kx = mapGet l kx := by
  have hk : (k == kx) = false := by simp [Ne.symm h]
  induction l with
  | nil => simp [mapSet, mapGet, List.find?, hk]
  | cons a t ih =>
    by_cases ha : a.fst = k
    · have h2 : (a.fst == kx) = false := by rw [ha]; exact hk
      simp [mapSet, mapGet, List.find?, ha, hk, h2]
    · simp only [mapSet, mapGet] at ih ⊢
      rw [if_neg (by simp [ha])]
      by_cases hb : a.fst = kx
      · simp [List.find?, hb]
      · have hfb : (a.fst == kx) = false := by simp [hb]
        simpa [List.find?, hfb] using ih

/-- Claim C5: the breakpoints model is a map keyed by code id: after
`setBreakpoints(id, bps)`, `getBreakpoints(id)` returns `bps`, and for
any other id the previous result is unchanged; every stored breakpoint
is an `IBreakpoint` record carrying a source path, a line, a verified
flag and an active flag. -/
theorem C5_breakpoints_map_get_set (m : IDebugger.BreakpointsModel)
    (id idx : String) (bps : List IDebugger.IBreakpoint) (h : idx ≠ id) :
    IDebugger.getBreakpoints (IDebugger.setBreakpoints m id bps) id = bps
    ∧ IDebugger.getBreakpoints (IDebugger.setBreakpoints m id bps) idx
      = IDebugger.getBreakpoints m idx := by
  constructor
  · simp [IDebugger.getBreakpoints, IDebugger.setBreakpoints,
      mapGet_mapSet_self]
  · simp [IDebugger.getBreakpoints, IDebugger.setBreakpoints,
      mapGet_mapSet_ne _ _ _ _ h]

/-- Witness for C5 with two concrete distinct code ids. -/
theorem C5_breakpoints_map_get_set_witness :
    ("idB") ≠ ("idA")
    ∧ (IDebugger.getBreakpoints
        (IDebugger.setBreakpoints { breakpoints := [] } ("idA")
          [{ path := ("cell.py"), line := 3, verified := true,
             active := true }]) ("idA")
        = [{ path := ("cell.py"), line := 3, verified := true,
             active := true }]
      ∧ IDebugger.getBreakpoints
          (IDebugger.setBreakpoints { breakpoints := [] } ("idA")
            [{ path := ("cell.py"), line := 3, verified := true,
               active := true }]) ("idB")
        = IDebugger.getBreakpoints { breakpoints := [] } ("idB")) :=
  ⟨by decide,
    C5_breakpoints_map_get_set { breakpoints := [] } ("idA") ("idB")
      [{ path := ("cell.py"), line := 3, verified := true, active := true }]
      (by decide)⟩

/-- Claim C6: `getSource` resolves with a source record (path, content,
optional mime type) for the given path, and sources are cached by path:
calling `getSource` again for the same path on the resulting cache
returns the very same state and source — in particular the same content
and no further kernel fetch (`fetchCount` unchanged). The hypothesis
states that cache entries are keyed by the path of their source. -/
theorem C6_get_source_cached (fetch : String → String × Option String)
    (svc : IDebugger.SourceCache) (path : String)
    (hw : ∀ p ∈ svc.entries, p.snd.path = p.fst) :
    (IDebugger.getSource fetch svc path).2.path = path
    ∧ IDebugger.getSource fetch (IDebugger.getSource fetch svc path).1 path
      = IDebugger.getSource fetch svc path := by
  cases hfind : mapGet svc.entries path with
  | some p =>
    have hfind2 : List.find? (fun q => q.fst == path) svc.entries
        = some p := hfind
    have hp : p.fst = path :=
      eq_of_beq
        (@List.find?_some _ (fun q => q.fst == path) p svc.entries hfind2)
    have hmem : p ∈ svc.entries := List.mem_of_find?_eq_some hfind2
    have hpath : p.snd.path = path := by
      have hq := hw p hmem
      rw [hq]
      exact hp
    constructor
    · simp [IDebugger.getSource, hfind, hpath]
    · simp [IDebugger.getSource, hfind]
  | none =>
    constructor
    · simp [IDebugger.getSource, hfind]
    · simp [IDebugger.getSource, hfind, mapGet_mapSet_self]

/-- Witness for C6 at the empty cache, a constant kernel fetch and a
concrete path. -/
theorem C6_get_source_cached_witness :
    (∀ p ∈ ({ entries := [], fetchCount := 0 } :
        IDebugger.SourceCache).entries, p.snd.path = p.fst)
    ∧ ((IDebugger.getSource (fun _ => (("print(1)"), none))
          { entries := [], fetchCount := 0 } ("main.py")).2.path
        = ("main.py")
      ∧ IDebugger.getSource (fun _ => (("print(1)"), none))
          (IDebugger.getSource (fun _ => (("print(1)"), none))
            { entries := [], fetchCount := 0 } ("main.py")).1 ("main.py")
        = IDebugger.getSource (fun _ => (("print(1)"), none))
            { entries := [], fetchCount := 0 } ("main.py")) :=
  ⟨by simp, C6_get_source_cached (fun _ => (("print(1)"), none))
    { entries := [], fetchCount := 0 } ("main.py") (by simp)⟩

/-- Claim C7: after `execute(force = true)` resolves, the prompt is a
newly created code cell distinct from the prompt before the call,
`newPrompt` has been invoked, and the executed cell has been appended so
the content holds strictly more than one cell. The hypotheses state the
widget invariants: the prompt id is fresh with respect to `nextId`,
and the content holds at least the banner cell. -/
theorem C7_execute_replaces_prompt (st : ConsoleState)
    (chk : String → Bool) (now : Nat)
    (h1 : st.prompt.id < st.nextId) (h2 : 1 ≤ st.cells.length) :
    (execute chk true now st).prompt ≠ st.prompt
    ∧ ("newPrompt") ∈ (execute chk true now st).methods
    ∧ 1 < (execute chk true now st).cells.length := by
  refine ⟨?_, ?_, ?_⟩
  · intro heq
    have hid := congrArg Cell.id heq
    simp [execute, newPromptStep] at hid
    omega
  · simp [execute, newPromptStep]
  · simp [execute, newPromptStep]
    omega

/-- Witness for C7 at the post-attach console state. -/
theorem C7_execute_replaces_prompt_witness :
    (initialConsole.prompt.id < initialConsole.nextId
      ∧ 1 ≤ initialConsole.cells.length)
    ∧ ((execute isCodeComplete true 0 initialConsole).prompt
        ≠ initialConsole.prompt
      ∧ ("newPrompt") ∈ (execute isCodeComplete true 0 initialConsole).methods
      ∧ 1 < (execute isCodeComplete true 0 initialConsole).cells.length) :=
  ⟨⟨by decide, by decide⟩,
    C7_execute_replaces_prompt initialConsole isCodeComplete 0
      (by decide) (by decide)⟩

/-- Claim C8: when `execute(force = true)` resolves, the `executed`
signal has been emitted exactly once for that execution, carrying a
`Date` value. -/
theorem C8_executed_signal_once_with_date (st : ConsoleState)
    (chk : String → Bool) (now : Nat) :
    (execute chk true now st).executedEmits
      = st.executedEmits ++ [{ time := now }]
    ∧ (execute chk true now st).executedEmits.length
      = st.executedEmits.length + 1 := by
  constructor <;> simp [execute, newPromptStep]

/-- Claim C9: every public asynchronous operation of the debugger
interface yields an asynchronous result; when the kernel exchange fails
the rejection is propagated unchanged to the caller — no retry, no
recovery, and no partial state application — while on success the
operation applies its state transition once. -/
theorem C9_errors_propagate_unchanged (op : DebuggerOp)
    (st : DebuggerServiceState) (e : String) (r : Nat) :
    runOp (Except.error e) op st = Except.error e
    ∧ runOp (Except.ok r) op st = Except.ok (applyOp op st, r) :=
  ⟨rfl, rfl⟩

/-- Claim C10: calling `execute` with `force = false` while the prompt
holds the syntactically incomplete code of the multiline test leaves the
console untouched: no cell is appended (the content still holds exactly
one cell) and the prompt source is left in place for amending. -/
theorem C10_incomplete_code_not_executed :
    execute isCodeComplete false 0 multilineConsole = multilineConsole
    ∧ (execute isCodeComplete false 0 multilineConsole).cells.length = 1
    ∧ (execute isCodeComplete false 0 multilineConsole).prompt.source
      = ("for x in range(5):") := by
  refine ⟨?_, ?_, ?_⟩ <;> decide

/-- Witness for C8 at the post-attach console state and a concrete
timestamp. -/
theorem C8_executed_signal_once_with_date_witness :
    (execute isCodeComplete true 5 initialConsole).executedEmits
      = initialConsole.executedEmits ++ [{ time := 5 }]
    ∧ (execute isCodeComplete true 5 initialConsole).executedEmits.length
      = initialConsole.executedEmits.length + 1 :=
  C8_executed_signal_once_with_date initialConsole isCodeComplete 5

/-- Witness for C9 at the `start` operation, a concrete rejection and a
concrete success reply. -/
theorem C9_errors_propagate_unchanged_witness :
    runOp (Except.error ("kernel gone")) DebuggerOp.start
        { isStarted := false, breakpoints := [] }
      = Except.error ("kernel gone")
    ∧ runOp (Except.ok 1) DebuggerOp.start
        { isStarted := false, breakpoints := [] }
      = Except.ok (applyOp DebuggerOp.start
          { isStarted := false, breakpoints := [] }, 1) :=
  C9_errors_propagate_unchanged DebuggerOp.start
    { isStarted := false, breakpoints := [] } ("kernel gone") 1
